import Mathlib

/-!
# EV charging station locator — booking engine, shallow embedding

A shallow embedding of the booking conflict-resolution and slot-allocation
engine of the EV-charging-station web application, translated from
`backend/routes/bookings.js` (the `POST /bookings` and
`PUT /bookings/:id/status` handlers) and from the admin override route
`PUT /admin/bookings/:id/status` in the admin router.

Modelling conventions:
* Timestamps are integers (minutes).  The JavaScript source subtracts two
  `Date` values in milliseconds and divides by 3 600 000 to get hours; here
  the duration in minutes is divided by 60.
* Money (`pricing_per_hour`, `total_cost`) is in integer cents.
  `(x).toFixed(2)` — rounding to two decimal places — becomes rounding to
  integer cents, `⌊x + 1/2⌋` implemented with `Int.fdiv`.
* SQL rows become records, tables become lists, and the SQL queries of each
  handler become list filters translated predicate-for-predicate; in
  particular SQL `BETWEEN` is inclusive on both ends, exactly as in the
  queries of the source.
* Statuses are the strings the source compares against.
* A booking's `slot_number` column is `Option Int`: `none` stands for SQL
  `NULL` / JavaScript `undefined` (the source inserts the loop variable
  verbatim and never validates it).
* The per-request `try { BEGIN … COMMIT; emit; 201 } catch { ROLLBACK; 500 }`
  block is modelled deterministically: the one fallible step after `COMMIT`
  is the socket emit, represented by a boolean `emitOk` parameter.  A failed
  emit lands in the `catch` block, whose `ROLLBACK` after a completed
  `COMMIT` is a no-op on the data.
-/

/-- A row of the `stations` table, restricted to the columns the booking
flow reads (`SELECT total_slots, pricing_per_hour … WHERE status = 'active'`).
`pricingPerHour` is in cents. -/
structure Station where
  id : Nat
  totalSlots : Nat
  pricingPerHour : Int
  status : String
deriving Repr, DecidableEq

/-- A row of the `bookings` table.  `totalCost` is in cents; timestamps are
minutes. -/
structure Booking where
  id : Nat
  stationId : Nat
  userId : Nat
  slotNumber : Option Int
  startTime : Int
  endTime : Int
  totalCost : Int
  status : String
deriving Repr, DecidableEq

/-- A row of the `power_logs` table (`station_id, booking_id, power_kw`). -/
structure PowerLog where
  stationId : Nat
  bookingId : Option Nat
  powerKw : Int
deriving Repr, DecidableEq

/-- The relational store the handlers issue queries against. -/
structure Store where
  stations : List Station
  bookings : List Booking
  powerLogs : List PowerLog
  nextBookingId : Nat
deriving Repr, DecidableEq

/-- SQL `x BETWEEN lo AND hi` — inclusive on both ends. -/
def sqlBetween (x lo hi : Int) : Bool :=
  lo ≤ x && x ≤ hi

/-- `status IN ('active', 'pending')`, the status filter shared by the
conflict query and the used-slots query. -/
def isActiveOrPending (b : Booking) : Bool :=
  b.status == "active" || b.status == "pending"

/-- The window predicate of the conflict-count query (`POST /bookings`):
`($2 BETWEEN start_time AND end_time) OR ($3 BETWEEN start_time AND end_time)
OR (start_time BETWEEN $2 AND $3)`, with `$2 = startT`, `$3 = endT`. -/
def conflictWindow (b : Booking) (startT endT : Int) : Bool :=
  sqlBetween startT b.startTime b.endTime ||
  sqlBetween endT b.startTime b.endTime ||
  sqlBetween b.startTime startT endT

/-- `SELECT COUNT(*) FROM bookings WHERE station_id = $1 AND status IN
('active','pending') AND (<conflictWindow>)`. -/
def conflictCount (bs : List Booking) (stationId : Nat) (startT endT : Int) : Nat :=
  (bs.filter (fun b =>
    b.stationId == stationId && isActiveOrPending b &&
    conflictWindow b startT endT)).length

/-- The window predicate of the used-slots query: only
`$2 BETWEEN start_time AND end_time OR $3 BETWEEN start_time AND end_time` —
unlike `conflictWindow` it has no `start_time BETWEEN $2 AND $3` disjunct. -/
def usedSlotWindow (b : Booking) (startT endT : Int) : Bool :=
  sqlBetween startT b.startTime b.endTime ||
  sqlBetween endT b.startTime b.endTime

/-- `SELECT DISTINCT slot_number FROM bookings WHERE station_id = $1 AND
status IN ('active','pending') AND (<usedSlotWindow>)`. -/
def usedSlots (bs : List Booking) (stationId : Nat) (startT endT : Int) :
    List (Option Int) :=
  ((bs.filter (fun b =>
    b.stationId == stationId && isActiveOrPending b &&
    usedSlotWindow b startT endT)).map (fun b => b.slotNumber)).dedup

/-- The slot-search loop `for (let i = 1; i <= total_slots; i++)
{ if (!usedSlots.includes(i)) { assignedSlotNumber = i; break } }`,
as a fuelled recursion starting at `i`.  `usedSlots.includes(i)` compares the
number `i` against the stored column values, so a `NULL` slot never matches. -/
def firstFreeFrom (used : List (Option Int)) : Nat → Nat → Option Nat
  | _, 0 => none
  | i, fuel + 1 =>
    if used.contains (some (i : Int)) then firstFreeFrom used (i + 1) fuel
    else some i

/-- The slot-search loop run from `i = 1` up to `totalSlots`; `none` when the
loop exhausts without a break (`assignedSlotNumber` stays `undefined`). -/
def firstFreeSlot (used : List (Option Int)) (totalSlots : Nat) : Option Nat :=
  firstFreeFrom used 1 totalSlots

/-- The `slot_number` field of the request body: absent/`null`, the empty
string, or a JSON number. -/
inductive SlotReq where
  | absent
  | emptyStr
  | num (n : Int)
deriving Repr, DecidableEq

/-- JavaScript truthiness of the request's `slot_number`, as tested by
`if (!assignedSlotNumber)`: `undefined`/`null`, `""` and `0` are falsy. -/
def SlotReq.truthy : SlotReq → Bool
  | .absent => false
  | .emptyStr => false
  | .num n => n != 0

/-- The column value a truthy request slot is inserted as. -/
def SlotReq.toVal : SlotReq → Option Int
  | .absent => none
  | .emptyStr => none
  | .num n => some n

/-- `let assignedSlotNumber = slot_number; if (!assignedSlotNumber) { … }`:
a truthy request value is used verbatim, otherwise the slot-search loop runs
over the used-slots query result. -/
def assignSlot (bs : List Booking) (stationId : Nat) (startT endT : Int)
    (slotReq : SlotReq) (totalSlots : Nat) : Option Int :=
  if slotReq.truthy then slotReq.toVal
  else (firstFreeSlot (usedSlots bs stationId startT endT) totalSlots).map
    (fun k => (k : Int))

/-- `const durationHours = (endDate - startDate) / (1000*60*60);
const totalCost = (durationHours * pricing_per_hour).toFixed(2)`.
With minutes and cents: `⌊(endT - startT) * rate / 60 + 1/2⌋` cents,
computed as a floor division. -/
def computeCost (startT endT : Int) (rateCents : Int) : Int :=
  Int.fdiv (2 * ((endT - startT) * rateCents) + 60) 120

/-- `SELECT total_slots, pricing_per_hour FROM stations WHERE id = $1 AND
status = $2` with `$2 = 'active'`. -/
def findStation (ss : List Station) (stationId : Nat) : Option Station :=
  ss.find? (fun s => s.id == stationId && s.status == "active")

/-- Outcome of `POST /bookings`, tagged by the response the handler sends. -/
inductive CreateResult where
  /-- `res.status(201).json(booking)` -/
  | created (b : Booking)
  /-- `404 'Station not found or inactive'` -/
  | stationNotFound
  /-- `409 'No available slots for selected time'` -/
  | noSlotsForTime
  /-- the `catch` block: `500 'Failed to create booking'` -/
  | serverError
deriving Repr, DecidableEq

/-- HTTP status code of a `CreateResult`. -/
def CreateResult.httpStatus : CreateResult → Nat
  | .created _ => 201
  | .stationNotFound => 404
  | .noSlotsForTime => 409
  | .serverError => 500

/-- The row inserted by `INSERT INTO bookings … VALUES ($1,…,$7)` with
status `'pending'`. -/
def mkBooking (st : Store) (userId stationId : Nat) (startT endT : Int)
    (slot : Option Int) (rateCents : Int) : Booking :=
  { id := st.nextBookingId
    stationId := stationId
    userId := userId
    slotNumber := slot
    startTime := startT
    endTime := endT
    totalCost := computeCost startT endT rateCents
    status := "pending" }

/-- The store after the insert commits. -/
def commitBooking (st : Store) (b : Booking) : Store :=
  { st with bookings := st.bookings ++ [b], nextBookingId := st.nextBookingId + 1 }

/-- The `POST /bookings` handler: station lookup, conflict count against
`total_slots`, slot assignment, cost, insert with status `'pending'`,
`COMMIT`, then the socket emit and the `201` response.  `emitOk = false`
makes the post-commit emit throw: control reaches the `catch` block, whose
`ROLLBACK` is a no-op after `COMMIT`, and the response is the generic `500`
— the committed row stays in the store. -/
def createBooking (st : Store) (userId stationId : Nat) (startT endT : Int)
    (slotReq : SlotReq) (emitOk : Bool) : CreateResult × Store :=
  match findStation st.stations stationId with
  | none => (.stationNotFound, st)
  | some station =>
    if station.totalSlots ≤ conflictCount st.bookings stationId startT endT then
      (.noSlotsForTime, st)
    else
      let b := mkBooking st userId stationId startT endT
        (assignSlot st.bookings stationId startT endT slotReq station.totalSlots)
        station.pricingPerHour
      if emitOk then (.created b, commitBooking st b)
      else (.serverError, commitBooking st b)

/-- Outcome of the two status-update handlers. -/
inductive UpdateResult where
  /-- `res.json(booking)` -/
  | ok (b : Booking)
  /-- `400 'Invalid status'` -/
  | invalidStatus
  /-- `404 'Booking not found'` -/
  | notFound
deriving Repr, DecidableEq

/-- HTTP status code of an `UpdateResult`. -/
def UpdateResult.httpStatus : UpdateResult → Nat
  | .ok _ => 200
  | .invalidStatus => 400
  | .notFound => 404

/-- The `PUT /bookings/:id/status` handler: the only validation is
`['active','completed','cancelled'].includes(status)`; then
`UPDATE bookings SET status = $1 WHERE id = $2 AND user_id = $3 RETURNING *`,
and — only when the new status is `'active'` — an insert into `power_logs`
with `power_kw = 0` for the booking. -/
def updateBookingStatus (st : Store) (userId bookingId : Nat) (status : String) :
    UpdateResult × Store :=
  if !(["active", "completed", "cancelled"].contains status) then
    (.invalidStatus, st)
  else
    match st.bookings.find? (fun b => b.id == bookingId && b.userId == userId) with
    | none => (.notFound, st)
    | some b0 =>
      let b := { b0 with status := status }
      let bookings' := st.bookings.map (fun x =>
        if x.id == bookingId && x.userId == userId then { x with status := status }
        else x)
      let logs' :=
        if status == "active" then
          st.powerLogs ++ [{ stationId := b.stationId, bookingId := some b.id,
                             powerKw := 0 }]
        else st.powerLogs
      (.ok b, { st with bookings := bookings', powerLogs := logs' })

/-- The admin override `PUT /admin/bookings/:id/status`: same status-value
check, `UPDATE … WHERE id = $2` with no ownership filter, and no
`power_logs` insert at all. -/
def adminUpdateBookingStatus (st : Store) (bookingId : Nat) (status : String) :
    UpdateResult × Store :=
  if !(["active", "completed", "cancelled"].contains status) then
    (.invalidStatus, st)
  else
    match st.bookings.find? (fun b => b.id == bookingId) with
    | none => (.notFound, st)
    | some b0 =>
      let b := { b0 with status := status }
      let bookings' := st.bookings.map (fun x =>
        if x.id == bookingId then { x with status := status } else x)
      (.ok b, { st with bookings := bookings' })

/-- Modelled from the spec (for comparison with the code's `conflictWindow`):
two windows `[s1,e1)` and `[s2,e2)` overlap iff `s1 < e2 AND s2 < e1` —
half-open semantics, where a touching boundary is not an overlap. -/
def specOverlaps (s1 e1 s2 e2 : Int) : Bool :=
  s1 < e2 && s2 < e1

/-! ## Concrete fixtures

Small stores used to evaluate the handlers on concrete inputs.  Prices are
in cents (6000 = 60.00/h, 2500 = 25.00/h); times are minutes of day
(600 = 10:00, 660 = 11:00, 720 = 12:00). -/

/-- A one-slot active station. -/
def stationOne : Station := { id := 1, totalSlots := 1, pricingPerHour := 6000, status := "active" }

/-- A two-slot active station. -/
def stationTwo : Station := { id := 1, totalSlots := 2, pricingPerHour := 6000, status := "active" }

/-- A three-slot active station. -/
def stationThree : Station := { id := 1, totalSlots := 3, pricingPerHour := 6000, status := "active" }

/-- A two-slot active station priced 25.00/h. -/
def stationP25 : Station := { id := 1, totalSlots := 2, pricingPerHour := 2500, status := "active" }

/-- A pending booking on station 1, slot 1, window 10:00–11:00. -/
def bkSlot1 : Booking :=
  { id := 1, stationId := 1, userId := 7, slotNumber := some 1,
    startTime := 600, endTime := 660, totalCost := 6000, status := "pending" }

/-- A pending booking on station 1, slot 1, window 11:00–11:20 — strictly
inside the window 10:00–12:00. -/
def bkInner : Booking :=
  { id := 1, stationId := 1, userId := 7, slotNumber := some 1,
    startTime := 660, endTime := 680, totalCost := 2000, status := "pending" }

/-- A completed booking on station 1 owned by user 7. -/
def bkCompleted : Booking :=
  { id := 1, stationId := 1, userId := 7, slotNumber := some 1,
    startTime := 600, endTime := 660, totalCost := 6000, status := "completed" }

/-- Two-slot station, empty booking table. -/
def storeEmpty2 : Store := { stations := [stationTwo], bookings := [], powerLogs := [], nextBookingId := 1 }

/-- One-slot station with `bkSlot1` pending. -/
def storeFull1 : Store := { stations := [stationOne], bookings := [bkSlot1], powerLogs := [], nextBookingId := 2 }

/-- Two-slot station with `bkSlot1` pending. -/
def storeOcc2 : Store := { stations := [stationTwo], bookings := [bkSlot1], powerLogs := [], nextBookingId := 2 }

/-- Two-slot station with `bkInner` pending. -/
def storeInner : Store := { stations := [stationTwo], bookings := [bkInner], powerLogs := [], nextBookingId := 2 }

/-- Two-slot 25.00/h station, empty booking table. -/
def storeP25 : Store := { stations := [stationP25], bookings := [], powerLogs := [], nextBookingId := 1 }

/-- Station with `bkCompleted`. -/
def storeCompleted : Store := { stations := [stationTwo], bookings := [bkCompleted], powerLogs := [], nextBookingId := 2 }

/-- Station with `bkSlot1` pending (for the status routes). -/
def storePending : Store := { stations := [stationTwo], bookings := [bkSlot1], powerLogs := [], nextBookingId := 2 }

/-- Three-slot station with slots 1 and 2 taken by pending bookings on the
window 10:00–11:00. -/
def storeSlots12 : Store :=
  { stations := [stationThree],
    bookings := [bkSlot1,
      { id := 2, stationId := 1, userId := 8, slotNumber := some 2,
        startTime := 600, endTime := 660, totalCost := 6000, status := "pending" }],
    powerLogs := [], nextBookingId := 3 }

/-! ## Helper lemmas -/

/-- Specification of the slot-search loop: a returned slot lies in the
scanned range, is not in the used list, and every smaller scanned slot is
in the used list. -/
theorem firstFreeFrom_spec (used : List (Option Int)) :
    ∀ (fuel i j : Nat), firstFreeFrom used i fuel = some j →
      i ≤ j ∧ j < i + fuel ∧ used.contains (some (j : Int)) = false ∧
      ∀ k, i ≤ k → k < j → used.contains (some (k : Int)) = true := by
  intro fuel
  induction fuel with
  | zero => intro i j h; simp [firstFreeFrom] at h
  | succ n ih =>
    intro i j h
    rw [firstFreeFrom] at h
    by_cases hc : used.contains (some (i : Int)) = true
    · rw [if_pos hc] at h
      obtain ⟨h1, h2, h3, h4⟩ := ih (i + 1) j h
      refine ⟨by omega, by omega, h3, ?_⟩
      intro k hk1 hk2
      rcases Nat.eq_or_lt_of_le hk1 with heq | hlt
      · exact heq ▸ hc
      · exact h4 k hlt hk2
    · rw [if_neg hc] at h
      cases h
      exact ⟨Nat.le_refl _, by omega, Bool.not_eq_true _ ▸ Bool.of_not_eq_true hc,
        fun k hk1 hk2 => absurd (Nat.lt_of_le_of_lt hk1 hk2) (Nat.lt_irrefl _)⟩

/-- Specification of `firstFreeSlot` (the loop started at 1). -/
theorem firstFreeSlot_spec (used : List (Option Int)) (n j : Nat)
    (h : firstFreeSlot used n = some j) :
    1 ≤ j ∧ j ≤ n ∧ used.contains (some (j : Int)) = false ∧
      ∀ k, 1 ≤ k → k < j → used.contains (some (k : Int)) = true := by
  obtain ⟨h1, h2, h3, h4⟩ := firstFreeFrom_spec used n 1 j h
  exact ⟨h1, by omega, h3, h4⟩

/-- A pending/active booking on the station whose window satisfies the
used-slots window predicate contributes its slot number to `usedSlots`. -/
theorem mem_usedSlots (bs : List Booking) (sid : Nat) (sT eT : Int) (b : Booking)
    (hb : b ∈ bs) (h1 : b.stationId = sid) (h2 : isActiveOrPending b = true)
    (h3 : usedSlotWindow b sT eT = true) :
    b.slotNumber ∈ usedSlots bs sid sT eT := by
  unfold usedSlots
  rw [List.mem_dedup]
  exact List.mem_map_of_mem _ (List.mem_filter.mpr ⟨hb, by simp [h1, h2, h3]⟩)

/-- Inversion of a `201` outcome of `createBooking`: the station was found
active, the conflict count was below capacity, the emit succeeded, and the
returned booking and store have the inserted shape. -/
theorem createBooking_created_inv (st : Store) (u sid : Nat) (sT eT : Int)
    (slotReq : SlotReq) (emitOk : Bool) (b : Booking) (st' : Store)
    (h : createBooking st u sid sT eT slotReq emitOk = (CreateResult.created b, st')) :
    ∃ s, findStation st.stations sid = some s ∧
      conflictCount st.bookings sid sT eT < s.totalSlots ∧
      emitOk = true ∧
      b = mkBooking st u sid sT eT
        (assignSlot st.bookings sid sT eT slotReq s.totalSlots) s.pricingPerHour ∧
      st' = commitBooking st b := by
  cases hfs : findStation st.stations sid with
  | none => simp [createBooking, hfs] at h
  | some s =>
    simp only [createBooking, hfs] at h
    by_cases hc : s.totalSlots ≤ conflictCount st.bookings sid sT eT
    · rw [if_pos hc] at h
      simp at h
    · rw [if_neg hc] at h
      cases emitOk with
      | false => simp at h
      | true =>
        rw [if_pos rfl] at h
        have h1 := congrArg Prod.fst h
        have h2 := congrArg Prod.snd h
        simp only at h1 h2
        injection h1 with h1
        subst h1
        exact ⟨s, rfl, Nat.lt_of_not_le hc, rfl, rfl, h2.symm⟩

/-- Forward evaluation of `createBooking` when the station is found and the
conflict count is below capacity: the row is inserted and committed; the
response is `201` when the emit succeeds and the generic `500` when it
throws, the committed store being the same either way. -/
theorem createBooking_success_eq (st : Store) (u sid : Nat) (sT eT : Int)
    (slotReq : SlotReq) (emitOk : Bool) (s : Station)
    (hs : findStation st.stations sid = some s)
    (hc : conflictCount st.bookings sid sT eT < s.totalSlots) :
    createBooking st u sid sT eT slotReq emitOk =
      ((if emitOk then
          CreateResult.created (mkBooking st u sid sT eT
            (assignSlot st.bookings sid sT eT slotReq s.totalSlots) s.pricingPerHour)
        else CreateResult.serverError),
       commitBooking st (mkBooking st u sid sT eT
         (assignSlot st.bookings sid sT eT slotReq s.totalSlots) s.pricingPerHour)) := by
  simp only [createBooking, hs]
  rw [if_neg (Nat.not_le.mpr hc)]
  cases emitOk <;> rfl

/-- A duplicate-free list included in another list is no longer than it. -/
theorem nodup_subset_length_le {α : Type} [DecidableEq α] {l1 l2 : List α}
    (h1 : l1.Nodup) (hs : l1 ⊆ l2) : l1.length ≤ l2.length := by
  calc l1.length = l1.toFinset.card := (List.toFinset_card_of_nodup h1).symm
    _ ≤ l2.toFinset.card := Finset.card_le_card (fun x hx => by
        rw [List.mem_toFinset] at hx ⊢; exact hs hx)
    _ ≤ l2.length := List.toFinset_card_le l2

/-- A booking matching the used-slots query also matches the conflict-count
query: the used-slots window predicate is one disjunct short of the conflict
one. -/
theorem usedSlots_length_le_conflictCount (bs : List Booking) (sid : Nat)
    (sT eT : Int) :
    (usedSlots bs sid sT eT).length ≤ conflictCount bs sid sT eT := by
  unfold usedSlots conflictCount
  have himp : ∀ b : Booking,
      (b.stationId == sid && isActiveOrPending b && usedSlotWindow b sT eT) = true →
      (b.stationId == sid && isActiveOrPending b && conflictWindow b sT eT) = true := by
    intro b hb
    unfold conflictWindow usedSlotWindow at *
    simp only [Bool.and_eq_true, Bool.or_eq_true] at hb ⊢
    tauto
  calc ((bs.filter _).map (fun b => b.slotNumber)).dedup.length
      ≤ ((bs.filter _).map (fun b => b.slotNumber)).length :=
        (List.dedup_sublist _).length_le
    _ = (bs.filter (fun b =>
          b.stationId == sid && isActiveOrPending b && usedSlotWindow b sT eT)).length :=
        List.length_map _ _
    _ ≤ (bs.filter (fun b =>
          b.stationId == sid && isActiveOrPending b && conflictWindow b sT eT)).length :=
        (List.monotone_filter_right bs himp).length_le

/-- When the slot-search loop exhausts its range without a break, every slot
number in the scanned range is in the used list. -/
theorem firstFreeFrom_none (used : List (Option Int)) :
    ∀ (fuel i : Nat), firstFreeFrom used i fuel = none →
      ∀ k, i ≤ k → k < i + fuel → used.contains (some (k : Int)) = true := by
  intro fuel
  induction fuel with
  | zero => intro i _ k _ hk2; omega
  | succ n ih =>
    intro i h k hk1 hk2
    rw [firstFreeFrom] at h
    by_cases hc : used.contains (some (i : Int)) = true
    · rw [if_pos hc] at h
      rcases Nat.eq_or_lt_of_le hk1 with heq | hlt
      · exact heq ▸ hc
      · exact ih (i + 1) h k hlt (by omega)
    · rw [if_neg hc] at h
      exact (Option.some_ne_none _ h).elim

/-- Pigeonhole: if the used list is shorter than the number of slots, the
slot-search loop finds a free slot. -/
theorem freeSlot_exists (used : List (Option Int)) (n : Nat)
    (hlen : used.length < n) :
    ∃ k, firstFreeSlot used n = some k := by
  cases hff : firstFreeSlot used n with
  | some k => exact ⟨k, rfl⟩
  | none =>
    exfalso
    have hall := firstFreeFrom_none used n 1 hff
    have hsub : ((List.range' 1 n).map (fun k => some ((k : Nat) : Int))) ⊆ used := by
      intro x hx
      rw [List.mem_map] at hx
      obtain ⟨k, hk, rfl⟩ := hx
      rw [List.mem_range'_1] at hk
      have hmem := hall k hk.1 (by omega)
      simpa using hmem
    have hndc : ((List.range' 1 n).map (fun k => some ((k : Nat) : Int))).Nodup := by
      refine (List.nodup_range' 1 n).map ?_
      intro a b hab
      simpa using hab
    have hle := nodup_subset_length_le hndc hsub
    simp only [List.length_map] at hle
    rw [List.length_range'] at hle
    omega

/-- The used-slots query result is duplicate-free (`SELECT DISTINCT`). -/
theorem usedSlots_nodup (bs : List Booking) (sid : Nat) (sT eT : Int) :
    (usedSlots bs sid sT eT).Nodup := by
  unfold usedSlots
  exact List.nodup_dedup _

/-! ## Claims -/

/-- C1, counterexample.  Starting from an empty two-slot station, two
successive `createBooking` calls both return `201`: the first auto-assigns
slot 1 for 10:00–11:00; the second requests `slot_number = 1` for the same
window and is admitted because the handler never checks a caller-supplied
slot, only the station-wide conflict count (1 < 2).  The resulting store
holds two `pending` bookings on station 1, slot 1, with identical —
hence overlapping, even under the spec's half-open reading — windows,
violating the at-most-one-per-slot invariant. -/
theorem C1_counterexample :
    (createBooking storeEmpty2 7 1 600 660 SlotReq.absent true).1.httpStatus = 201 ∧
    (createBooking (createBooking storeEmpty2 7 1 600 660 SlotReq.absent true).2
        9 1 600 660 (SlotReq.num 1) true).1.httpStatus = 201 ∧
    ((createBooking (createBooking storeEmpty2 7 1 600 660 SlotReq.absent true).2
        9 1 600 660 (SlotReq.num 1) true).2.bookings.filter (fun b =>
          b.stationId == 1 && b.slotNumber == some (1 : Int) && isActiveOrPending b &&
          specOverlaps b.startTime b.endTime 600 660)).length = 2 := by decide

/-- C1, amended.  The only slot-exclusivity `createBooking` provides: when no
slot is requested (`SlotReq.absent`), the auto-assigned slot differs from the
slot of every existing pending/active booking on the station that the
used-slots query's window predicate catches (`usedSlotWindow`).  Bookings
whose window only satisfies the third conflict disjunct, and any
caller-supplied slot, are not protected, and the invariant of the claim does
not hold. -/
theorem C1_amended (st : Store) (u sid : Nat) (sT eT : Int) (emitOk : Bool)
    (b : Booking) (st' : Store)
    (h : createBooking st u sid sT eT SlotReq.absent emitOk =
      (CreateResult.created b, st')) :
    b.slotNumber = none ∨
      ∀ b' ∈ st.bookings, b'.stationId = sid → isActiveOrPending b' = true →
        usedSlotWindow b' sT eT = true → b.slotNumber ≠ b'.slotNumber := by
  obtain ⟨s, hs, hc, he, hb, hst⟩ :=
    createBooking_created_inv st u sid sT eT SlotReq.absent emitOk b st' h
  subst hb
  have hslot : (mkBooking st u sid sT eT
      (assignSlot st.bookings sid sT eT SlotReq.absent s.totalSlots)
      s.pricingPerHour).slotNumber =
      (firstFreeSlot (usedSlots st.bookings sid sT eT) s.totalSlots).map
        (fun k => (k : Int)) := by
    simp [mkBooking, assignSlot, SlotReq.truthy]
  cases hff : firstFreeSlot (usedSlots st.bookings sid sT eT) s.totalSlots with
  | none => left; rw [hslot, hff]; rfl
  | some j =>
    right
    intro b' hb' h1 h2 h3 heq
    obtain ⟨_, _, hnc, _⟩ := firstFreeSlot_spec _ _ _ hff
    have hmem : b'.slotNumber ∈ usedSlots st.bookings sid sT eT :=
      mem_usedSlots _ _ _ _ b' hb' h1 h2 h3
    rw [hslot, hff] at heq
    rw [← heq] at hmem
    simp at hnc
    exact hnc hmem

/-- C1, witness for the amended theorem at a concrete input: on `storeOcc2`
(slot 1 taken for 10:00–11:00 by `bkSlot1`) an auto-assigned booking for the
same window gets a slot different from that of every weak-overlapping
booking. -/
theorem C1_amended_witness :
    (mkBooking storeOcc2 9 1 600 660 (some 2) 6000).slotNumber = none ∨
      ∀ b' ∈ storeOcc2.bookings, b'.stationId = 1 → isActiveOrPending b' = true →
        usedSlotWindow b' 600 660 = true →
        (mkBooking storeOcc2 9 1 600 660 (some 2) 6000).slotNumber ≠ b'.slotNumber :=
  C1_amended storeOcc2 9 1 600 660 true
    (mkBooking storeOcc2 9 1 600 660 (some 2) 6000)
    (commitBooking storeOcc2 (mkBooking storeOcc2 9 1 600 660 (some 2) 6000))
    (by decide)

/-- C2, counterexample.  The conflict query uses inclusive SQL `BETWEEN`, not
half-open windows: against the pending booking `bkSlot1` on 10:00–11:00, a
request for 11:00–12:00 (boundary touch) is counted as a conflict
(`conflictWindow` is `true` while the spec's half-open `specOverlaps` is
`false`), and on a one-slot station the request is rejected `409` instead of
being admitted. -/
theorem C2_counterexample :
    conflictWindow bkSlot1 660 720 = true ∧
    specOverlaps 660 720 bkSlot1.startTime bkSlot1.endTime = false ∧
    (createBooking storeFull1 9 1 660 720 SlotReq.absent true).1 =
      CreateResult.noSlotsForTime := by decide

/-- C2, amended.  For well-ordered windows the conflict predicate implements
closed-interval intersection: booking `[s1,e1]` and request `[s2,e2]` are
counted as overlapping iff `s1 ≤ e2 AND s2 ≤ e1` — a touching boundary DOES
count as overlap.  (The claim's second concrete pair, 10:00–11:00 versus
10:30–11:30, does conflict, as the witness instantiates.) -/
theorem C2_amended (b : Booking) (s e : Int)
    (hb : b.startTime ≤ b.endTime) (hse : s ≤ e) :
    conflictWindow b s e = true ↔ (b.startTime ≤ e ∧ s ≤ b.endTime) := by
  unfold conflictWindow sqlBetween
  simp only [Bool.or_eq_true, Bool.and_eq_true, decide_eq_true_eq]
  omega

/-- C2, witness for the amended theorem: `bkSlot1` (10:00–11:00) against the
request 10:30–11:30. -/
theorem C2_amended_witness :
    conflictWindow bkSlot1 630 690 = true ↔
      (bkSlot1.startTime ≤ 690 ∧ 630 ≤ bkSlot1.endTime) :=
  C2_amended bkSlot1 630 690 (by decide) (by decide)

/-- C3, counterexample.  A caller-supplied `slot_number` is not validated at
all: on an empty two-slot station, requesting slot 99 — outside `[1, 2]` —
returns `201` and inserts the row with slot 99; and on `storeOcc2`, where
slot 1 is already held by the overlapping pending booking `bkSlot1` for the
same window, requesting slot 1 also returns `201` (no `SlotConflict`, and a
row IS created). -/
theorem C3_counterexample :
    (createBooking storeEmpty2 9 1 600 660 (SlotReq.num 99) true).1 =
      CreateResult.created (mkBooking storeEmpty2 9 1 600 660 (some 99) 6000) ∧
    (createBooking storeOcc2 8 1 600 660 (SlotReq.num 1) true).1 =
      CreateResult.created (mkBooking storeOcc2 8 1 600 660 (some 1) 6000) := by decide

/-- C3, amended.  A truthy caller-supplied `slot_number = n` is used
verbatim: whenever the station is found active and the station-wide conflict
count is below capacity, the booking is created with slot `n`, with no range
check against `[1, totalSlots]` and no occupancy check — the only `409` of
the handler is the capacity check. -/
theorem C3_amended (st : Store) (u sid : Nat) (sT eT : Int) (n : Int)
    (emitOk : Bool) (s : Station)
    (hn : n ≠ 0)
    (hs : findStation st.stations sid = some s)
    (hc : conflictCount st.bookings sid sT eT < s.totalSlots) :
    createBooking st u sid sT eT (SlotReq.num n) emitOk =
      ((if emitOk then
          CreateResult.created (mkBooking st u sid sT eT (some n) s.pricingPerHour)
        else CreateResult.serverError),
       commitBooking st (mkBooking st u sid sT eT (some n) s.pricingPerHour)) := by
  have ha : assignSlot st.bookings sid sT eT (SlotReq.num n) s.totalSlots = some n := by
    simp [assignSlot, SlotReq.truthy, SlotReq.toVal, hn]
  rw [createBooking_success_eq st u sid sT eT (SlotReq.num n) emitOk s hs hc, ha]

/-- C3, witness for the amended theorem: on `storeOcc2` the request for the
out-of-range slot 99 on the occupied window is admitted verbatim. -/
theorem C3_amended_witness :
    createBooking storeOcc2 9 1 600 660 (SlotReq.num 99) true =
      ((if true then
          CreateResult.created (mkBooking storeOcc2 9 1 600 660 (some 99)
            stationTwo.pricingPerHour)
        else CreateResult.serverError),
       commitBooking storeOcc2 (mkBooking storeOcc2 9 1 600 660 (some 99)
         stationTwo.pricingPerHour)) :=
  C3_amended storeOcc2 9 1 600 660 99 true stationTwo (by decide) (by decide)
    (by decide)

/-- C4, counterexample.  On `storeInner` the pending booking `bkInner`
(slot 1, 11:00–11:20) lies strictly inside the requested window 10:00–12:00:
it is an overlapping pending booking by the handler's own conflict predicate,
yet the used-slots query — which lacks the containment disjunct — misses it,
and the resolver hands out slot 1 again instead of the first genuinely free
slot. -/
theorem C4_counterexample :
    (createBooking storeInner 9 1 600 720 SlotReq.absent true).1 =
      CreateResult.created (mkBooking storeInner 9 1 600 720 (some 1) 6000) ∧
    bkInner.slotNumber = some 1 ∧
    isActiveOrPending bkInner = true ∧
    conflictWindow bkInner 600 720 = true := by decide

/-- C4, amended.  The resolver scans `1..totalSlots` ascending and picks the
first slot not in the result of the used-slots query (whose window predicate
misses bookings strictly containing neither request endpoint): the assigned
slot is in range, absent from that query's result, and every smaller slot
number is present in it. -/
theorem C4_amended (st : Store) (u sid : Nat) (sT eT : Int) (emitOk : Bool)
    (s : Station) (b : Booking) (st' : Store) (k : Nat)
    (hs : findStation st.stations sid = some s)
    (h : createBooking st u sid sT eT SlotReq.absent emitOk =
      (CreateResult.created b, st'))
    (hff : firstFreeSlot (usedSlots st.bookings sid sT eT) s.totalSlots = some k) :
    b.slotNumber = some ((k : Nat) : Int) ∧ 1 ≤ k ∧ k ≤ s.totalSlots ∧
    (usedSlots st.bookings sid sT eT).contains (some ((k : Nat) : Int)) = false ∧
    (∀ j, 1 ≤ j → j < k →
      (usedSlots st.bookings sid sT eT).contains (some ((j : Nat) : Int)) = true) := by
  obtain ⟨s', hs', hc, he, hb, hst⟩ :=
    createBooking_created_inv st u sid sT eT SlotReq.absent emitOk b st' h
  have hss : s' = s := by rw [hs] at hs'; exact (Option.some.inj hs').symm
  subst hss
  subst hb
  obtain ⟨h1, h2, h3, h4⟩ := firstFreeSlot_spec _ _ _ hff
  refine ⟨?_, h1, h2, h3, h4⟩
  simp [mkBooking, assignSlot, SlotReq.truthy, hff]

/-- C4, witness for the amended theorem: with `total_slots = 3` and slots
{1, 2} held by overlapping pending bookings on the same window, the resolver
returns slot 3. -/
theorem C4_amended_witness :
    (mkBooking storeSlots12 9 1 600 660 (some 3) 6000).slotNumber =
      some ((3 : Nat) : Int) ∧
    1 ≤ 3 ∧ 3 ≤ stationThree.totalSlots ∧
    (usedSlots storeSlots12.bookings 1 600 660).contains
      (some ((3 : Nat) : Int)) = false ∧
    (∀ j, 1 ≤ j → j < 3 →
      (usedSlots storeSlots12.bookings 1 600 660).contains
        (some ((j : Nat) : Int)) = true) :=
  C4_amended storeSlots12 9 1 600 660 true stationThree
    (mkBooking storeSlots12 9 1 600 660 (some 3) 6000)
    (commitBooking storeSlots12 (mkBooking storeSlots12 9 1 600 660 (some 3) 6000))
    3 (by decide) (by decide) (by decide)

/-- C5, counterexample.  There is no `InvalidWindow` check anywhere in the
handler: a request with `end = start` (10:00–10:00) is admitted with cost 0,
and a request with `end < start` (10:00 back to 09:00) is admitted with a
NEGATIVE cost of −25.00 — refuting both the `InvalidWindow` failure and
`cost ≥ 0`.  (The claim's positive example does hold: two hours at 25.00/h
cost 50.00.) -/
theorem C5_counterexample :
    (createBooking storeP25 9 1 600 600 SlotReq.absent true).1 =
      CreateResult.created (mkBooking storeP25 9 1 600 600 (some 1) 2500) ∧
    (mkBooking storeP25 9 1 600 600 (some 1) 2500).totalCost = 0 ∧
    (createBooking storeP25 9 1 600 540 SlotReq.absent true).1 =
      CreateResult.created (mkBooking storeP25 9 1 600 540 (some 1) 2500) ∧
    (mkBooking storeP25 9 1 600 540 (some 1) 2500).totalCost = -2500 ∧
    computeCost 600 720 2500 = 5000 := by decide

/-- C5, amended.  Whenever admission succeeds, the inserted booking's cost is
exactly `computeCost` (duration in hours times the hourly rate, rounded to
cents) and its status is `pending`; the cost is nonnegative when `end ≥
start` and the rate is nonnegative — but no window validation exists, so
`end ≤ start` is admitted too (with zero or negative cost). -/
theorem C5_amended (st : Store) (u sid : Nat) (sT eT : Int) (emitOk : Bool)
    (s : Station)
    (hs : findStation st.stations sid = some s)
    (hc : conflictCount st.bookings sid sT eT < s.totalSlots) :
    ∃ b : Booking,
      createBooking st u sid sT eT SlotReq.absent emitOk =
        ((if emitOk then CreateResult.created b else CreateResult.serverError),
         commitBooking st b) ∧
      b.totalCost = computeCost sT eT s.pricingPerHour ∧
      b.status = "pending" ∧
      (sT ≤ eT → 0 ≤ s.pricingPerHour → 0 ≤ b.totalCost) := by
  refine ⟨mkBooking st u sid sT eT
      (assignSlot st.bookings sid sT eT SlotReq.absent s.totalSlots)
      s.pricingPerHour,
    createBooking_success_eq st u sid sT eT SlotReq.absent emitOk s hs hc,
    rfl, rfl, ?_⟩
  intro h1 h2
  show 0 ≤ computeCost sT eT s.pricingPerHour
  unfold computeCost
  have hm : 0 ≤ (eT - sT) * s.pricingPerHour := mul_nonneg (by omega) h2
  exact Int.fdiv_nonneg (by omega) (by norm_num)

/-- C5, witness for the amended theorem: 10:00–12:00 at 25.00/h on
`storeP25`. -/
theorem C5_amended_witness :
    ∃ b : Booking,
      createBooking storeP25 9 1 600 720 SlotReq.absent true =
        ((if true then CreateResult.created b else CreateResult.serverError),
         commitBooking storeP25 b) ∧
      b.totalCost = computeCost 600 720 stationP25.pricingPerHour ∧
      b.status = "pending" ∧
      ((600 : Int) ≤ 720 → 0 ≤ stationP25.pricingPerHour → 0 ≤ b.totalCost) :=
  C5_amended storeP25 9 1 600 720 true stationP25 (by decide) (by decide)

/-- C6, counterexample.  Neither status route implements a transition guard:
on `storeCompleted` the owning user moves the COMPLETED booking back to
`active` with a `200` (mutating the stored row), and the admin route
cancels the completed booking — both transitions the claimed lifecycle
forbids, and no `InvalidTransition` (`409`) response exists in either
handler. -/
theorem C6_counterexample :
    (updateBookingStatus storeCompleted 7 1 "active").1 =
      UpdateResult.ok { bkCompleted with status := "active" } ∧
    (updateBookingStatus storeCompleted 7 1 "active").2.bookings =
      [{ bkCompleted with status := "active" }] ∧
    (adminUpdateBookingStatus storeCompleted 1 "cancelled").1 =
      UpdateResult.ok { bkCompleted with status := "cancelled" } := by decide

/-- C6, amended.  The only validation either status route performs is that
the requested value is one of `active`, `completed`, `cancelled`: for any
such value and any booking matching the route's lookup (ownership for the
user route, bare id for the admin route), the update succeeds and sets that
status — regardless of the booking's current status. -/
theorem C6_amended (st : Store) (u bid : Nat) (status : String)
    (b0 b1 : Booking)
    (hv : status ∈ ["active", "completed", "cancelled"])
    (hf : st.bookings.find? (fun b => b.id == bid && b.userId == u) = some b0)
    (hfa : st.bookings.find? (fun b => b.id == bid) = some b1) :
    (updateBookingStatus st u bid status).1 =
      UpdateResult.ok { b0 with status := status } ∧
    (adminUpdateBookingStatus st bid status).1 =
      UpdateResult.ok { b1 with status := status } := by
  simp only [List.mem_cons, List.not_mem_nil, or_false] at hv
  rcases hv with rfl | rfl | rfl <;>
    exact ⟨by simp [updateBookingStatus, hf], by simp [adminUpdateBookingStatus, hfa]⟩

/-- C6, witness for the amended theorem: the completed booking of
`storeCompleted` is reactivated by both routes. -/
theorem C6_amended_witness :
    (updateBookingStatus storeCompleted 7 1 "active").1 =
      UpdateResult.ok { bkCompleted with status := "active" } ∧
    (adminUpdateBookingStatus storeCompleted 1 "active").1 =
      UpdateResult.ok { bkCompleted with status := "active" } :=
  C6_amended storeCompleted 7 1 "active" bkCompleted bkCompleted (by decide)
    (by decide) (by decide)

/-- C7, counterexample.  An error response does not guarantee the booking's
absence: when the post-commit socket emit throws, the handler answers the
generic `500`, but the `ROLLBACK` in the catch block comes after `COMMIT`
and the inserted row stays in the store. -/
theorem C7_counterexample :
    (createBooking storeEmpty2 9 1 600 660 SlotReq.absent false).1.httpStatus = 500 ∧
    (createBooking storeEmpty2 9 1 600 660 SlotReq.absent false).2.bookings =
      [mkBooking storeEmpty2 9 1 600 660 (some 1) 6000] := by decide

/-- C7, amended.  The pre-commit guarantees hold: a `404` or the capacity
`409` leaves the store untouched, and a conflict count at or above
`total_slots` yields exactly `(noSlotsForTime, st)`; but a `500` arising
from the post-commit emit leaves the inserted row in the store (one more
booking than before). -/
theorem C7_amended (st : Store) (u sid : Nat) (sT eT : Int) (slotReq : SlotReq)
    (emitOk : Bool) :
    ((createBooking st u sid sT eT slotReq emitOk).1 = CreateResult.stationNotFound ∨
        (createBooking st u sid sT eT slotReq emitOk).1 = CreateResult.noSlotsForTime →
      (createBooking st u sid sT eT slotReq emitOk).2 = st) ∧
    (∀ s, findStation st.stations sid = some s →
      s.totalSlots ≤ conflictCount st.bookings sid sT eT →
      createBooking st u sid sT eT slotReq emitOk = (CreateResult.noSlotsForTime, st)) ∧
    ((createBooking st u sid sT eT slotReq emitOk).1 = CreateResult.serverError →
      (createBooking st u sid sT eT slotReq emitOk).2.bookings.length =
        st.bookings.length + 1) := by
  cases hfs : findStation st.stations sid with
  | none =>
    refine ⟨fun _ => by simp [createBooking, hfs], ?_, ?_⟩
    · intro s hs
      cases hs
    · intro hserr
      simp [createBooking, hfs] at hserr
  | some s =>
    by_cases hc : s.totalSlots ≤ conflictCount st.bookings sid sT eT
    · have heq : createBooking st u sid sT eT slotReq emitOk =
          (CreateResult.noSlotsForTime, st) := by
        simp only [createBooking, hfs]
        rw [if_pos hc]
      refine ⟨fun _ => by rw [heq], ?_, ?_⟩
      · intro s' hs' _
        exact heq
      · intro hserr
        rw [heq] at hserr
        simp at hserr
    · have hc' := Nat.lt_of_not_le hc
      have heq := createBooking_success_eq st u sid sT eT slotReq emitOk s hfs hc'
      refine ⟨?_, ?_, ?_⟩
      · intro hor
        rw [heq] at hor
        cases emitOk <;> simp at hor
      · intro s' hs' hcs
        injection hs' with hs''
        subst hs''
        exact absurd hcs (Nat.not_le.mpr hc')
      · intro hserr
        rw [heq] at hserr
        rw [heq]
        cases emitOk
        · simp [commitBooking]
        · simp at hserr

/-- C7, witness for the amended theorem: the one-slot station of `storeFull1`
already holds an overlapping pending booking, so the capacity branch fires
and the store is returned unchanged with the `409`. -/
theorem C7_amended_witness :
    createBooking storeFull1 9 1 600 660 SlotReq.absent true =
      (CreateResult.noSlotsForTime, storeFull1) :=
  (C7_amended storeFull1 9 1 600 660 SlotReq.absent true).2.1 stationOne
    (by decide) (by decide)

/-- C8, counterexample.  The admin override route activates a pending
booking with a `200` but inserts NO power-log row — the power-log seeding
exists only in the user route, so not every path into `active` appends an
entry. -/
theorem C8_counterexample :
    (adminUpdateBookingStatus storePending 1 "active").1 =
      UpdateResult.ok { bkSlot1 with status := "active" } ∧
    (adminUpdateBookingStatus storePending 1 "active").2.powerLogs =
      storePending.powerLogs := by decide

/-- C8, amended.  On the user route, a successful update to `active` appends
exactly one power-log entry, reading 0, referencing the booking; updates to
`completed` or `cancelled` append none.  The admin override route never
touches the power logs, for any requested status — activation included. -/
theorem C8_amended (st : Store) (u bid : Nat) (b0 : Booking)
    (hf : st.bookings.find? (fun b => b.id == bid && b.userId == u) = some b0) :
    (updateBookingStatus st u bid "active").2.powerLogs =
      st.powerLogs ++
        [{ stationId := b0.stationId, bookingId := some b0.id, powerKw := 0 }] ∧
    (updateBookingStatus st u bid "completed").2.powerLogs = st.powerLogs ∧
    (updateBookingStatus st u bid "cancelled").2.powerLogs = st.powerLogs ∧
    (∀ status : String,
      (adminUpdateBookingStatus st bid status).2.powerLogs = st.powerLogs) := by
  refine ⟨?_, ?_, ?_, ?_⟩
  · simp [updateBookingStatus, hf]
  · simp [updateBookingStatus, hf]
  · simp [updateBookingStatus, hf]
  · intro status
    unfold adminUpdateBookingStatus
    split
    · rfl
    · split <;> rfl

/-- C8, witness for the amended theorem on `storePending`. -/
theorem C8_amended_witness :
    (updateBookingStatus storePending 7 1 "active").2.powerLogs =
      storePending.powerLogs ++
        [{ stationId := bkSlot1.stationId, bookingId := some bkSlot1.id,
           powerKw := 0 }] ∧
    (updateBookingStatus storePending 7 1 "completed").2.powerLogs =
      storePending.powerLogs ∧
    (updateBookingStatus storePending 7 1 "cancelled").2.powerLogs =
      storePending.powerLogs ∧
    (∀ status : String,
      (adminUpdateBookingStatus storePending 1 status).2.powerLogs =
        storePending.powerLogs) :=
  C8_amended storePending 7 1 bkSlot1 (by decide)

/-- C9, counterexample.  The socket emit runs BEFORE `res.status(201)`, so
when it throws the caller gets the catch block's `500`, not `201` — even
though the transaction already committed and the booking is durably in the
store.  The durability half of the claim holds; the response half does
not. -/
theorem C9_counterexample :
    (createBooking storeP25 9 1 600 720 SlotReq.absent false).1.httpStatus = 500 ∧
    (createBooking storeP25 9 1 600 720 SlotReq.absent false).2.bookings =
      [mkBooking storeP25 9 1 600 720 (some 1) 2500] := by decide

/-- C9, amended.  For an admitted request, the committed store is identical
whether the post-commit emit succeeds or fails — a notification failure
never affects durability, and the row is in the store either way — but the
HTTP response differs: `500` (generic failure) on emit failure instead of
the `201` with the created booking. -/
theorem C9_amended (st : Store) (u sid : Nat) (sT eT : Int) (s : Station)
    (hs : findStation st.stations sid = some s)
    (hc : conflictCount st.bookings sid sT eT < s.totalSlots) :
    (createBooking st u sid sT eT SlotReq.absent false).2 =
      (createBooking st u sid sT eT SlotReq.absent true).2 ∧
    (createBooking st u sid sT eT SlotReq.absent false).1 =
      CreateResult.serverError ∧
    (createBooking st u sid sT eT SlotReq.absent true).1 =
      CreateResult.created (mkBooking st u sid sT eT
        (assignSlot st.bookings sid sT eT SlotReq.absent s.totalSlots)
        s.pricingPerHour) ∧
    (createBooking st u sid sT eT SlotReq.absent false).2.bookings =
      st.bookings ++ [mkBooking st u sid sT eT
        (assignSlot st.bookings sid sT eT SlotReq.absent s.totalSlots)
        s.pricingPerHour] := by
  rw [createBooking_success_eq st u sid sT eT SlotReq.absent false s hs hc,
      createBooking_success_eq st u sid sT eT SlotReq.absent true s hs hc]
  exact ⟨rfl, rfl, rfl, rfl⟩

/-- C9, witness for the amended theorem on the empty two-slot station. -/
theorem C9_amended_witness :
    (createBooking storeEmpty2 9 1 600 660 SlotReq.absent false).2 =
      (createBooking storeEmpty2 9 1 600 660 SlotReq.absent true).2 ∧
    (createBooking storeEmpty2 9 1 600 660 SlotReq.absent false).1 =
      CreateResult.serverError ∧
    (createBooking storeEmpty2 9 1 600 660 SlotReq.absent true).1 =
      CreateResult.created (mkBooking storeEmpty2 9 1 600 660
        (assignSlot storeEmpty2.bookings 1 600 660 SlotReq.absent
          stationTwo.totalSlots) stationTwo.pricingPerHour) ∧
    (createBooking storeEmpty2 9 1 600 660 SlotReq.absent false).2.bookings =
      storeEmpty2.bookings ++ [mkBooking storeEmpty2 9 1 600 660
        (assignSlot storeEmpty2.bookings 1 600 660 SlotReq.absent
          stationTwo.totalSlots) stationTwo.pricingPerHour] :=
  C9_amended storeEmpty2 9 1 600 660 stationTwo (by decide) (by decide)

/-- C10, confirmed.  A falsy `slot_number` — the number 0, `null`/absent, or
the empty string — fails the `if (!assignedSlotNumber)` truthiness test and
triggers automatic assignment: the whole handler behaves identically to a
request with the field absent, and any booking created from `slot_number =
0` carries the auto-assigned first free slot, which lies in
`1..total_slots` (never slot 0, and no validation error). -/
theorem C10_confirmed (st : Store) (u sid : Nat) (sT eT : Int) (emitOk : Bool) :
    createBooking st u sid sT eT (SlotReq.num 0) emitOk =
      createBooking st u sid sT eT SlotReq.absent emitOk ∧
    createBooking st u sid sT eT SlotReq.emptyStr emitOk =
      createBooking st u sid sT eT SlotReq.absent emitOk ∧
    (∀ s b st', findStation st.stations sid = some s →
      createBooking st u sid sT eT (SlotReq.num 0) emitOk =
        (CreateResult.created b, st') →
      ∃ k : Nat, 1 ≤ k ∧ k ≤ s.totalSlots ∧
        b.slotNumber = some ((k : Nat) : Int)) := by
  have h0 : ∀ n, assignSlot st.bookings sid sT eT (SlotReq.num 0) n =
      assignSlot st.bookings sid sT eT SlotReq.absent n := by
    intro n; simp [assignSlot, SlotReq.truthy]
  have hE : ∀ n, assignSlot st.bookings sid sT eT SlotReq.emptyStr n =
      assignSlot st.bookings sid sT eT SlotReq.absent n := by
    intro n; simp [assignSlot, SlotReq.truthy]
  refine ⟨?_, ?_, ?_⟩
  · cases hfs : findStation st.stations sid with
    | none => simp [createBooking, hfs]
    | some s => simp [createBooking, hfs, h0]
  · cases hfs : findStation st.stations sid with
    | none => simp [createBooking, hfs]
    | some s => simp [createBooking, hfs, hE]
  · intro s b st' hfs hcr
    obtain ⟨s2, hs2, hc2, he2, hb2, hst2⟩ :=
      createBooking_created_inv st u sid sT eT (SlotReq.num 0) emitOk b st' hcr
    have hss : s2 = s := by rw [hfs] at hs2; exact (Option.some.inj hs2).symm
    subst hss
    have hlen : (usedSlots st.bookings sid sT eT).length < s2.totalSlots :=
      lt_of_le_of_lt (usedSlots_length_le_conflictCount st.bookings sid sT eT) hc2
    obtain ⟨k, hk⟩ := freeSlot_exists _ _ hlen
    obtain ⟨hk1, hk2, _, _⟩ := firstFreeSlot_spec _ _ _ hk
    refine ⟨k, hk1, hk2, ?_⟩
    subst hb2
    simp [mkBooking, assignSlot, SlotReq.truthy, hk]

/-- C10, witness: on the empty two-slot station a request with
`slot_number = 0` yields a booking on slot 1. -/
theorem C10_confirmed_witness :
    ∃ k : Nat, 1 ≤ k ∧ k ≤ stationTwo.totalSlots ∧
      (mkBooking storeEmpty2 9 1 600 660 (some 1) 6000).slotNumber =
        some ((k : Nat) : Int) :=
  (C10_confirmed storeEmpty2 9 1 600 660 true).2.2 stationTwo
    (mkBooking storeEmpty2 9 1 600 660 (some 1) 6000)
    (commitBooking storeEmpty2 (mkBooking storeEmpty2 9 1 600 660 (some 1) 6000))
    (by decide) (by decide)
